import Mathlib

/-!
Shallow embedding of the trading-decision core of the Volatility-Harvester
repository (app/core/strategy.py, app/core/risk.py, app/core/portfolio.py,
app/core/execution.py and the realized-P&L computation of the drivers in
app/services). Monetary quantities (Python `Decimal`) are modelled as `ℚ`;
timestamps as a day index plus seconds-of-day; Python `None` as `Option`.
Python string reason messages are modelled as tagged constructors carrying the
interpolated numeric values (the surrounding literal text of each message is
fixed per template). A Python `raise` is modelled by an explicit result
constructor, distinct from a normal return. Fields of the Python dataclasses
that none of the modelled operations read or write (timestamps, symbol names,
free-form metadata dictionaries) are omitted.
-/

namespace VolHarv

/-- Position-state machine states of `app.core.enums.StrategyState`
(`FLAT`, `LONG`, `PAUSED`). -/
inductive StrategyState
  | FLAT
  | LONG
  | PAUSED
deriving DecidableEq, Repr

/-- Signal kinds of `app.core.enums.SignalType`. -/
inductive SignalType
  | buy
  | sell
  | hold
deriving DecidableEq, Repr

/-- Circuit-breaker tags of `app.core.enums.CircuitBreakerReason`
(the `MANUAL` member is never produced by the modelled code). -/
inductive CircuitBreakerReason
  | MAX_DRAWDOWN
  | CONSECUTIVE_LOSSES
  | DAILY_LOSS_LIMIT
  | LOW_VOLATILITY
  | HIGH_VOLATILITY
  | SPREAD_TOO_WIDE
  | STALE_DATA
deriving DecidableEq, Repr

/-- `app.core.models.MarketData`: bid/ask snapshot (symbol, timestamp and
24h volume omitted: the modelled code never branches on them). -/
structure MarketData where
  bid : ℚ
  ask : ℚ
deriving DecidableEq, Repr

/-- `MarketData.mid`: `(bid + ask) / 2`. -/
def MarketData.mid (md : MarketData) : ℚ := (md.bid + md.ask) / 2

/-- `MarketData.spread_bps`: `(ask - bid) / mid * 10000`, with the source's
explicit `mid == 0` guard returning `0`. -/
def MarketData.spread_bps (md : MarketData) : ℚ :=
  if md.mid = 0 then 0 else (md.ask - md.bid) / md.mid * 10000

/-- `app.core.models.StrategyStateData` (the `last_update` timestamp is
omitted; no modelled claim reads it). -/
structure StrategyStateData where
  state : StrategyState := .FLAT
  last_peak : Option ℚ := none
  last_trough : Option ℚ := none
  last_buy_price : Option ℚ := none
  last_sell_price : Option ℚ := none
  current_position_qty : ℚ := 0
  realized_pnl : ℚ := 0
  unrealized_pnl : ℚ := 0
  total_equity : ℚ := 0
  peak_equity : ℚ := 0
  current_drawdown_pct : ℚ := 0
  consecutive_losses : ℕ := 0
  consecutive_wins : ℕ := 0
  total_trades : ℕ := 0
  winning_trades : ℕ := 0
  atr_pct : Option ℚ := none
  adaptive_buy_threshold : Option ℚ := none
  adaptive_sell_threshold : Option ℚ := none
  paused : Bool := false
  pause_reason : Option String := none
deriving DecidableEq, Repr

/-- One OHLC candle row as consumed by the strategy (`open`/`volume` unused). -/
structure Candle where
  high : ℚ
  low : ℚ
  close : ℚ
deriving DecidableEq, Repr

/-- Constructor parameters of `VolatilityHarvester.__init__` together with the
`settings` fields its methods read (`use_trend_filter`, `ma_short`, `ma_long`). -/
structure HarvesterConfig where
  buy_threshold_pct : ℚ
  sell_threshold_pct : ℚ
  adaptive : Bool
  min_swing_pct : ℚ
  max_swing_pct : ℚ
  use_trend_filter : Bool
  ma_short : ℕ
  ma_long : ℕ
deriving DecidableEq, Repr

/-- Per-row true range, `ranges.max(axis=1)` in `calculate_atr_pct`: for the
first row pandas' shifted close is NaN, both NaN columns are skipped and the
row maximum is `high - low`; every later row is
`max(high - low, |high - prev_close|, |low - prev_close|)`. `trAux` carries the
previous candle. -/
def trAux (prev : Candle) : List Candle → List ℚ
  | [] => []
  | c :: cs =>
      max (c.high - c.low) (max |c.high - prev.close| |c.low - prev.close|) :: trAux c cs

/-- True-range series of a candle list (see `trAux`). -/
def trueRanges : List Candle → List ℚ
  | [] => []
  | c :: cs => (c.high - c.low) :: trAux c cs

/-- `rolling(window=w).mean().iloc[-1]` over a series: the mean of the last `w`
entries (only used where the source guarantees `w ≤ length`). -/
def rollingMeanLast (xs : List ℚ) (w : ℕ) : ℚ :=
  (xs.drop (xs.length - w)).sum / (w : ℚ)

/-- `VolatilityHarvester.calculate_atr_pct`: ATR (rolling mean of the last
`period` true ranges) as a percent of the last close, `0` when fewer than
`period + 1` candles or the last close is `0`. -/
def calculate_atr_pct (candles : List Candle) (period : ℕ) : ℚ :=
  if candles.length < period + 1 then 0
  else
    let atr := rollingMeanLast (trueRanges candles) period
    let current_price := ((candles.map Candle.close).getLastD 0)
    if current_price = 0 then 0
    else atr / current_price * 100

/-- `VolatilityHarvester.adapt_thresholds`: identity on the configured
thresholds when not adaptive; otherwise clamp to `min_swing_pct` below ATR 2%,
to `max_swing_pct` above ATR 6%, and linearly interpolate between. Both
returned thresholds are the same adapted value. -/
def adapt_thresholds (cfg : HarvesterConfig) (atr_pct : ℚ) : ℚ × ℚ :=
  if ¬cfg.adaptive then (cfg.buy_threshold_pct, cfg.sell_threshold_pct)
  else
    let atr_min : ℚ := 2
    let atr_max : ℚ := 6
    let adapted_threshold :=
      if atr_pct ≤ atr_min then cfg.min_swing_pct
      else if atr_pct ≥ atr_max then cfg.max_swing_pct
      else
        cfg.min_swing_pct +
          (atr_pct - atr_min) / (atr_max - atr_min) * (cfg.max_swing_pct - cfg.min_swing_pct)
    (adapted_threshold, adapted_threshold)

/-- `VolatilityHarvester.check_trend_filter`: `true` (allow trading) when the
filter is disabled or fewer than `ma_long` candles are supplied; otherwise
`ma_short rolling mean > ma_long rolling mean` on the closes. -/
def check_trend_filter (cfg : HarvesterConfig) (candles : List Candle) : Bool :=
  if ¬cfg.use_trend_filter then true
  else if candles.length < cfg.ma_long then true
  else
    decide (rollingMeanLast (candles.map Candle.close) cfg.ma_long
      < rollingMeanLast (candles.map Candle.close) cfg.ma_short)

/-- Reason messages produced by `generate_signal`, one constructor per f-string
template, carrying the interpolated values. -/
inductive SignalReason
  | pausedR (cause : Option String)
  | trendBearish
  | droppedFromPeak (drop_pct peak : ℚ)
  | roseFromEntry (rise_pct entry : ℚ)
  | missingBuyPrice
  | noTrigger
deriving DecidableEq, Repr

/-- `app.core.models.Signal` (timestamp and the metadata dictionary omitted). -/
structure Signal where
  signal_type : SignalType
  price : ℚ
  reason : SignalReason
deriving DecidableEq, Repr

/-- The head of `generate_signal` (strategy.py lines 155-167), run before the
pause check: when a candle window of at least 15 rows is supplied, compute the
ATR, store it and the adapted thresholds on the state, and use the adapted
thresholds; otherwise keep the state and use the configured thresholds.
Returns the (possibly mutated) state and the selected buy/sell thresholds. -/
def atrStep (cfg : HarvesterConfig) (state : StrategyStateData)
    (candles : Option (List Candle)) : StrategyStateData × ℚ × ℚ :=
  match candles with
  | some cs =>
      if 15 ≤ cs.length then
        let a := calculate_atr_pct cs 14
        let ts := adapt_thresholds cfg a
        ({ state with atr_pct := some a, adaptive_buy_threshold := some ts.1,
                      adaptive_sell_threshold := some ts.2 }, ts.1, ts.2)
      else (state, cfg.buy_threshold_pct, cfg.sell_threshold_pct)
  | none => (state, cfg.buy_threshold_pct, cfg.sell_threshold_pct)

/-- The trend-filter gate of `generate_signal` (strategy.py line 179):
suppression applies whenever candles were supplied and `check_trend_filter`
returns `False`. -/
def trendSuppressed (cfg : HarvesterConfig) (candles : Option (List Candle)) : Bool :=
  match candles with
  | some cs => ¬check_trend_filter cfg cs
  | none => false

/-- `VolatilityHarvester.generate_signal`, returning the mutated state
alongside the signal. The Python mutates `state` in place; here the updated
state is returned. Division follows the source literally, so the theorems
about price branches carry a nonzero-denominator hypothesis (the Python would
raise `ZeroDivisionError` there). -/
def generate_signal (cfg : HarvesterConfig) (state : StrategyStateData)
    (market_data : MarketData) (candles : Option (List Candle)) :
    StrategyStateData × Signal :=
  let current_price := market_data.mid
  let s1 := (atrStep cfg state candles).1
  let buy_threshold := (atrStep cfg state candles).2.1
  let sell_threshold := (atrStep cfg state candles).2.2
  if s1.paused then
    (s1, ⟨.hold, current_price, .pausedR s1.pause_reason⟩)
  else if trendSuppressed cfg candles then
    (s1, ⟨.hold, current_price, .trendBearish⟩)
  else
    match s1.state with
    | .FLAT =>
        let peak :=
          match s1.last_peak with
          | none => current_price
          | some pk => if pk < current_price then current_price else pk
        let s2 := { s1 with last_peak := some peak }
        let drop_pct := (peak - current_price) / peak * 100
        if buy_threshold ≤ drop_pct then
          (s2, ⟨.buy, current_price, .droppedFromPeak drop_pct peak⟩)
        else (s2, ⟨.hold, current_price, .noTrigger⟩)
    | .LONG =>
        let trough :=
          match s1.last_trough with
          | none => current_price
          | some tr => if current_price < tr then current_price else tr
        let s2 := { s1 with last_trough := some trough }
        match s2.last_buy_price with
        | none => (s2, ⟨.hold, current_price, .missingBuyPrice⟩)
        | some lbp =>
            let rise_pct := (current_price - lbp) / lbp * 100
            if sell_threshold ≤ rise_pct then
              (s2, ⟨.sell, current_price, .roseFromEntry rise_pct lbp⟩)
            else (s2, ⟨.hold, current_price, .noTrigger⟩)
    | .PAUSED => (s1, ⟨.hold, current_price, .noTrigger⟩)

/-- `VolatilityHarvester.update_state_after_buy` (timestamp write omitted). -/
def update_state_after_buy (state : StrategyStateData) (fill_price qty : ℚ) :
    StrategyStateData :=
  { state with state := .LONG, last_buy_price := some fill_price,
               current_position_qty := qty, last_trough := some fill_price }

/-- `VolatilityHarvester.update_state_after_sell` (timestamp write omitted):
flat, record exit, accumulate realized P&L, reset the peak to the exit price,
and advance the win/loss streak counters — a strictly positive `realized_pnl`
counts as a win, anything else as a loss. -/
def update_state_after_sell (state : StrategyStateData) (fill_price realized_pnl : ℚ) :
    StrategyStateData :=
  let base := { state with state := .FLAT, last_sell_price := some fill_price,
                           current_position_qty := 0,
                           realized_pnl := state.realized_pnl + realized_pnl,
                           last_peak := some fill_price }
  let streaked :=
    if 0 < realized_pnl then
      { base with consecutive_wins := base.consecutive_wins + 1,
                  consecutive_losses := 0,
                  winning_trades := base.winning_trades + 1 }
    else
      { base with consecutive_losses := base.consecutive_losses + 1,
                  consecutive_wins := 0 }
  { streaked with total_trades := streaked.total_trades + 1 }

/-- `VolatilityHarvester.calculate_position_size`. The first argument is
`settings.reserve_pct` (config default `8`). The Python parameter default is
`None` and the body reads `reserve_pct or settings.reserve_pct`, so a supplied
`Decimal("0")` is falsy and is replaced by the settings value exactly like an
omitted argument. -/
def calculate_position_size (settingsReserve : ℚ) (available_capital current_price : ℚ)
    (reserve_pct : Option ℚ) : ℚ :=
  let reserve :=
    match reserve_pct with
    | none => settingsReserve
    | some r => if r = 0 then settingsReserve else r
  let deployable_capital := available_capital * (100 - reserve) / 100
  if deployable_capital ≤ 0 then 0
  else deployable_capital / current_price

/-- A raised Python exception, tagged by site, carrying the values the
exception message interpolates. -/
inductive PyError
  | insufficientCash (held need : ℚ)
  | insufficientBtc (held need : ℚ)
  | typeErrorNoneEntry
deriving DecidableEq, Repr

/-- Outcome of calling a Python operation: a normal return, or an exception
propagated to the caller (`raise` in the source). -/
inductive PyResult (α : Type)
  | ok (val : α)
  | raised (err : PyError)
deriving DecidableEq

/-- `app.core.portfolio.Portfolio`: cash/position ledger. -/
structure Portfolio where
  cash : ℚ
  btc : ℚ
  initial_equity : ℚ
  realized_pnl : ℚ
deriving DecidableEq, Repr

/-- `Portfolio.get_equity`. -/
def get_equity (pf : Portfolio) (btc_price : ℚ) : ℚ := pf.cash + pf.btc * btc_price

/-- `Portfolio.get_unrealized_pnl`. -/
def get_unrealized_pnl (pf : Portfolio) (btc_price : ℚ) : ℚ :=
  get_equity pf btc_price - pf.initial_equity - pf.realized_pnl

/-- `Portfolio.execute_buy`: raises `ValueError` when cash cannot cover
`qty*price + fee`, otherwise debits cash and credits the position, returning
the total cost. -/
def execute_buy (pf : Portfolio) (qty price fee : ℚ) : PyResult (Portfolio × ℚ) :=
  let total_cost := qty * price + fee
  if pf.cash < total_cost then .raised (.insufficientCash pf.cash total_cost)
  else .ok ({ pf with cash := pf.cash - total_cost, btc := pf.btc + qty }, total_cost)

/-- `Portfolio.execute_sell`: raises `ValueError` when the position cannot
cover `qty`, otherwise credits `net_proceeds = qty*price - fee` to cash,
debits the position, and adds `net_proceeds - qty*price` (the source's
"simplified" formula, always `-fee`) to the ledger's own realized P&L. -/
def execute_sell (pf : Portfolio) (qty price fee : ℚ) : PyResult (Portfolio × ℚ) :=
  if pf.btc < qty then .raised (.insufficientBtc pf.btc qty)
  else
    let revenue := qty * price
    let net_proceeds := revenue - fee
    .ok ({ pf with btc := pf.btc - qty, cash := pf.cash + net_proceeds,
                   realized_pnl := pf.realized_pnl + (net_proceeds - qty * price) },
         net_proceeds)

/-- `Portfolio.sync_state`: copy equity, unrealized/realized P&L and position
quantity into the strategy state, then maintain peak equity and drawdown. -/
def sync_state (pf : Portfolio) (state : StrategyStateData) (btc_price : ℚ) :
    StrategyStateData :=
  let s1 := { state with total_equity := get_equity pf btc_price,
                          unrealized_pnl := get_unrealized_pnl pf btc_price,
                          realized_pnl := pf.realized_pnl,
                          current_position_qty := pf.btc }
  let s2 := if s1.peak_equity < s1.total_equity
            then { s1 with peak_equity := s1.total_equity } else s1
  if 0 < s2.peak_equity then
    { s2 with current_drawdown_pct :=
        (s2.peak_equity - s2.total_equity) / s2.peak_equity * 100 }
  else { s2 with current_drawdown_pct := 0 }

/-- `RiskManager.update_drawdown`: raise the peak and zero the drawdown on a
new equity high, otherwise recompute the drawdown when the peak is positive,
otherwise leave the state untouched. -/
def update_drawdown (state : StrategyStateData) : StrategyStateData :=
  if state.peak_equity < state.total_equity then
    { state with peak_equity := state.total_equity, current_drawdown_pct := 0 }
  else if 0 < state.peak_equity then
    { state with current_drawdown_pct :=
        (state.peak_equity - state.total_equity) / state.peak_equity * 100 }
  else state

/-- The realized-P&L round trip as driven by `Backtester.run` (and identically
by the paper/live traders): buy `qty` at `buy_price` with fee `buy_fee`
through the ledger, record the fill on the strategy state, then compute
`realized_pnl = (sell_price*qty - sell_fee) - last_buy_price*qty`, sell
through the ledger and record the sell on the strategy state. -/
def backtestRoundTrip (pf : Portfolio) (state : StrategyStateData)
    (qty buy_price buy_fee sell_price sell_fee : ℚ) :
    PyResult (Portfolio × StrategyStateData) :=
  match execute_buy pf qty buy_price buy_fee with
  | .raised e => .raised e
  | .ok (pf1, _) =>
      let s1 := update_state_after_buy state buy_price qty
      match s1.last_buy_price with
      | none => .raised .typeErrorNoneEntry
      | some entry =>
          let realized := (sell_price * qty - sell_fee) - entry * qty
          match execute_sell pf1 qty sell_price sell_fee with
          | .raised e => .raised e
          | .ok (pf2, _) => .ok (pf2, update_state_after_sell s1 sell_price realized)

/-- UTC timestamp: calendar day index plus seconds into the day. `.date()`
comparisons compare `day`; subtraction of timestamps gives elapsed seconds. -/
structure UTCTime where
  day : ℤ
  sec : ℚ
deriving DecidableEq, Repr

/-- Elapsed seconds between two timestamps. -/
def elapsedSeconds (later earlier : UTCTime) : ℚ :=
  ((later.day - earlier.day : ℤ) : ℚ) * 86400 + (later.sec - earlier.sec)

/-- The `settings` fields read by `RiskManager`. -/
structure RiskSettings where
  max_drawdown_pct : ℚ
  max_consecutive_losses : ℕ
  daily_loss_limit_pct : ℚ
  min_activity_pct : ℚ
  max_activity_pct : ℚ
  max_spread_bps : ℚ
  max_ws_stale_seconds : ℚ
deriving DecidableEq, Repr

/-- Mutable fields of `RiskManager`. -/
structure RiskManager where
  daily_pnl_reset_time : Option UTCTime
  daily_pnl : ℚ
deriving DecidableEq, Repr

/-- Circuit-breaker reason messages, one constructor per f-string template,
carrying the interpolated values. The literal text surrounding the numbers is
fixed per constructor: only `atrBelowMin` renders a message containing the
substring `"too choppy"` (numeric interpolations are digits, sign and dot and
cannot contain it), and only `atrAboveMax` one containing `"too volatile"`. -/
inductive CBText
  | drawdownExceeds (dd limit : ℚ)
  | consecutiveLossesExceed (n limit : ℕ)
  | dailyLossExceeds (loss_pct limit : ℚ)
  | atrBelowMin (atr min : ℚ)
  | atrAboveMax (atr max : ℚ)
  | spreadExceeds (spread limit : ℚ)
  | noHeartbeat
  | dataStale (secs limit : ℚ)
deriving DecidableEq, Repr

/-- The test `"too choppy" in reason.lower()` of
`check_all_circuit_breakers`, evaluated on each message template (see
`CBText`). -/
def containsTooChoppy : CBText → Bool
  | .atrBelowMin _ _ => true
  | _ => false

/-- `RiskManager.check_drawdown`. -/
def check_drawdown (cfg : RiskSettings) (state : StrategyStateData) :
    Bool × Option CBText :=
  if state.peak_equity = 0 then (false, none)
  else if cfg.max_drawdown_pct ≤ state.current_drawdown_pct then
    (true, some (.drawdownExceeds state.current_drawdown_pct cfg.max_drawdown_pct))
  else (false, none)

/-- `RiskManager.check_consecutive_losses`. -/
def check_consecutive_losses (cfg : RiskSettings) (state : StrategyStateData) :
    Bool × Option CBText :=
  if cfg.max_consecutive_losses ≤ state.consecutive_losses then
    (true, some (.consecutiveLossesExceed state.consecutive_losses cfg.max_consecutive_losses))
  else (false, none)

/-- `RiskManager.check_daily_loss_limit`, with `datetime.utcnow()` passed in
as `now`. Resets the daily-P&L counter when no reset has happened yet or the
UTC date advanced, then fires when the (negative) daily P&L reaches the
configured percent of current equity. Returns the updated manager. -/
def check_daily_loss_limit (cfg : RiskSettings) (rm : RiskManager)
    (state : StrategyStateData) (now : UTCTime) :
    RiskManager × Bool × Option CBText :=
  let rm' :=
    match rm.daily_pnl_reset_time with
    | none => ⟨some now, 0⟩
    | some t => if t.day < now.day then ⟨some now, 0⟩ else rm
  if state.total_equity = 0 then (rm', false, none)
  else
    let daily_loss_pct := |rm'.daily_pnl / state.total_equity * 100|
    if rm'.daily_pnl < 0 ∧ cfg.daily_loss_limit_pct ≤ daily_loss_pct then
      (rm', true, some (.dailyLossExceeds daily_loss_pct cfg.daily_loss_limit_pct))
    else (rm', false, none)

/-- `RiskManager.check_volatility_bounds`. -/
def check_volatility_bounds (cfg : RiskSettings) (atr_pct : Option ℚ) :
    Bool × Option CBText :=
  match atr_pct with
  | none => (false, none)
  | some a =>
      if a < cfg.min_activity_pct then (true, some (.atrBelowMin a cfg.min_activity_pct))
      else if cfg.max_activity_pct < a then (true, some (.atrAboveMax a cfg.max_activity_pct))
      else (false, none)

/-- `RiskManager.check_spread`. -/
def check_spread (cfg : RiskSettings) (md : MarketData) : Bool × Option CBText :=
  if cfg.max_spread_bps < md.spread_bps then
    (true, some (.spreadExceeds md.spread_bps cfg.max_spread_bps))
  else (false, none)

/-- `RiskManager.check_stale_data`: a missing heartbeat is immediately stale;
otherwise stale when the heartbeat age exceeds the configured maximum. -/
def check_stale_data (cfg : RiskSettings) (last_heartbeat : Option UTCTime)
    (now : UTCTime) : Bool × Option CBText :=
  match last_heartbeat with
  | none => (true, some .noHeartbeat)
  | some hb =>
      let age := elapsedSeconds now hb
      if cfg.max_ws_stale_seconds < age then (true, some (.dataStale age cfg.max_ws_stale_seconds))
      else (false, none)

/-- `check_all_circuit_breakers`'s dispatch on the volatility reason text. -/
def volTag (txt : Option CBText) : CircuitBreakerReason :=
  match txt with
  | some t => if containsTooChoppy t then .LOW_VOLATILITY else .HIGH_VOLATILITY
  | none => .HIGH_VOLATILITY

/-- `RiskManager.check_all_circuit_breakers`: the six checks run in source
order, first hit returning its tag and text; the volatility tag is split on
the `"too choppy"` substring test. Returns the (possibly reset) manager. -/
def check_all_circuit_breakers (cfg : RiskSettings) (rm : RiskManager)
    (state : StrategyStateData) (md : MarketData) (last_heartbeat : Option UTCTime)
    (now : UTCTime) :
    RiskManager × Bool × Option CircuitBreakerReason × Option CBText :=
  if (check_drawdown cfg state).1 then
    (rm, true, some .MAX_DRAWDOWN, (check_drawdown cfg state).2)
  else if (check_consecutive_losses cfg state).1 then
    (rm, true, some .CONSECUTIVE_LOSSES, (check_consecutive_losses cfg state).2)
  else if (check_daily_loss_limit cfg rm state now).2.1 then
    ((check_daily_loss_limit cfg rm state now).1, true, some .DAILY_LOSS_LIMIT,
     (check_daily_loss_limit cfg rm state now).2.2)
  else if (check_volatility_bounds cfg state.atr_pct).1 then
    ((check_daily_loss_limit cfg rm state now).1, true,
     some (volTag (check_volatility_bounds cfg state.atr_pct).2),
     (check_volatility_bounds cfg state.atr_pct).2)
  else if (check_spread cfg md).1 then
    ((check_daily_loss_limit cfg rm state now).1, true, some .SPREAD_TOO_WIDE,
     (check_spread cfg md).2)
  else if (check_stale_data cfg last_heartbeat now).1 then
    ((check_daily_loss_limit cfg rm state now).1, true, some .STALE_DATA,
     (check_stale_data cfg last_heartbeat now).2)
  else ((check_daily_loss_limit cfg rm state now).1, false, none, none)

/-- Written from the spec: "six independent circuit breakers, checked in this
fixed priority order (first true wins): (1) drawdown; (2) consecutive losses;
(3) daily realized loss; (4) volatility out of band (below ⇒ too choppy,
above ⇒ too volatile, distinct reasons); (5) spread; (6) heartbeat staleness
(missing heartbeat is immediately stale)". Each condition is the corresponding
breaker's own predicate; the result is the pause decision and the tag of the
highest-priority breaker that fired. -/
def specFirstBreaker (cfg : RiskSettings) (rm : RiskManager)
    (state : StrategyStateData) (md : MarketData) (last_heartbeat : Option UTCTime)
    (now : UTCTime) : Bool × Option CircuitBreakerReason :=
  if (check_drawdown cfg state).1 then (true, some .MAX_DRAWDOWN)
  else if (check_consecutive_losses cfg state).1 then (true, some .CONSECUTIVE_LOSSES)
  else if (check_daily_loss_limit cfg rm state now).2.1 then (true, some .DAILY_LOSS_LIMIT)
  else if (check_volatility_bounds cfg state.atr_pct).1 then
    (true, some (match state.atr_pct with
      | some a => if a < cfg.min_activity_pct then .LOW_VOLATILITY else .HIGH_VOLATILITY
      | none => .HIGH_VOLATILITY))
  else if (check_spread cfg md).1 then (true, some .SPREAD_TOO_WIDE)
  else if (check_stale_data cfg last_heartbeat now).1 then (true, some .STALE_DATA)
  else (false, none)

/-- An order fill as consumed by the execution engine (identifiers, timestamps
and the fee asset omitted). -/
structure Fill where
  qty : ℚ
  price : ℚ
  fee : ℚ
deriving DecidableEq, Repr

/-- Outcome of one place-and-wait phase of the execution protocol, as observed
through the exchange collaborator: a fill was retrieved; the wait ended with
no fill (timeout, terminal cancel/reject/expire, or an empty fills list); or a
transport exception was thrown somewhere in the phase. -/
inductive PhaseEvent
  | filled (f : Fill)
  | unfilled
  | transportError
deriving Repr

/-- The exchange-collaborator behaviour an execution call observes:
quantity rounding, the minimum notional, the `settings.maker_first` flag, and
the outcome of the maker and taker phases. -/
structure ExecEnv where
  roundQty : ℚ → ℚ
  minNotional : ℚ
  makerFirstSetting : Bool
  maker : PhaseEvent
  taker : PhaseEvent

/-- Error messages returned by `ExecutionEngine.execute_buy/execute_sell`,
one constructor per message template. -/
inductive ExecErrText
  | belowMinNotional (notional min : ℚ)
  | marketOrderFailedToFill
  | buyExecutionFailed
  | sellExecutionFailed
deriving DecidableEq, Repr

/-- `ExecutionEngine.execute_buy`. Transport exceptions in the maker phase are
caught and fall through to the taker; transport exceptions in the taker phase
are caught and converted to a failure triple. Only business validation
(minimum notional) rejects before any order is placed. -/
def executeBuyE (env : ExecEnv) (qty : ℚ) (md : MarketData) (maker_first : Bool) :
    PyResult (Bool × Option Fill × Option ExecErrText) :=
  let q := env.roundQty qty
  let notional := q * md.ask
  if notional < env.minNotional then
    .ok (false, none, some (.belowMinNotional notional env.minNotional))
  else
    let makerFill : Option Fill :=
      if maker_first ∧ env.makerFirstSetting then
        match env.maker with
        | .filled f => some f
        | .unfilled => none
        | .transportError => none
      else none
    match makerFill with
    | some f => .ok (true, some f, none)
    | none =>
        match env.taker with
        | .filled f => .ok (true, some f, none)
        | .unfilled => .ok (false, none, some .marketOrderFailedToFill)
        | .transportError => .ok (false, none, some .buyExecutionFailed)

/-- `ExecutionEngine.execute_sell`: mirror image of `executeBuyE` against the
bid. -/
def executeSellE (env : ExecEnv) (qty : ℚ) (md : MarketData) (maker_first : Bool) :
    PyResult (Bool × Option Fill × Option ExecErrText) :=
  let q := env.roundQty qty
  let notional := q * md.bid
  if notional < env.minNotional then
    .ok (false, none, some (.belowMinNotional notional env.minNotional))
  else
    let makerFill : Option Fill :=
      if maker_first ∧ env.makerFirstSetting then
        match env.maker with
        | .filled f => some f
        | .unfilled => none
        | .transportError => none
      else none
    match makerFill with
    | some f => .ok (true, some f, none)
    | none =>
        match env.taker with
        | .filled f => .ok (true, some f, none)
        | .unfilled => .ok (false, none, some .marketOrderFailedToFill)
        | .transportError => .ok (false, none, some .sellExecutionFailed)

/-! ### Helper lemmas -/

/-- The pre-pause ATR step touches only `atr_pct` and the two adaptive
thresholds: every other field of the state survives it unchanged. -/
lemma atrStep_frame (cfg : HarvesterConfig) (s : StrategyStateData)
    (c : Option (List Candle)) :
    ((atrStep cfg s c).1).state = s.state ∧
    ((atrStep cfg s c).1).last_peak = s.last_peak ∧
    ((atrStep cfg s c).1).last_trough = s.last_trough ∧
    ((atrStep cfg s c).1).last_buy_price = s.last_buy_price ∧
    ((atrStep cfg s c).1).last_sell_price = s.last_sell_price ∧
    ((atrStep cfg s c).1).current_position_qty = s.current_position_qty ∧
    ((atrStep cfg s c).1).realized_pnl = s.realized_pnl ∧
    ((atrStep cfg s c).1).unrealized_pnl = s.unrealized_pnl ∧
    ((atrStep cfg s c).1).total_equity = s.total_equity ∧
    ((atrStep cfg s c).1).peak_equity = s.peak_equity ∧
    ((atrStep cfg s c).1).current_drawdown_pct = s.current_drawdown_pct ∧
    ((atrStep cfg s c).1).consecutive_losses = s.consecutive_losses ∧
    ((atrStep cfg s c).1).consecutive_wins = s.consecutive_wins ∧
    ((atrStep cfg s c).1).total_trades = s.total_trades ∧
    ((atrStep cfg s c).1).winning_trades = s.winning_trades ∧
    ((atrStep cfg s c).1).paused = s.paused ∧
    ((atrStep cfg s c).1).pause_reason = s.pause_reason := by
  cases c with
  | none => simp [atrStep]
  | some cs =>
      simp only [atrStep]
      split <;> simp

/-- `trAux` over a constant candle list is constant. -/
lemma trAux_const (c : Candle) : ∀ n : ℕ,
    trAux c (List.replicate n c) =
      List.replicate n (max (c.high - c.low) (max |c.high - c.close| |c.low - c.close|)) := by
  intro n
  induction n with
  | zero => rfl
  | succ n ih => simp [List.replicate_succ, trAux, ih]

/-- True ranges of a constant candle list whose intra-bar range dominates. -/
lemma trueRanges_const (c : Candle)
    (h : max (c.high - c.low) (max |c.high - c.close| |c.low - c.close|) = c.high - c.low) :
    ∀ n : ℕ, trueRanges (List.replicate n c) = List.replicate n (c.high - c.low) := by
  intro n
  cases n with
  | zero => rfl
  | succ n => simp [List.replicate_succ, trueRanges, trAux_const, h]

/-- Rolling mean over a constant series is the constant. -/
lemma rollingMeanLast_replicate (x : ℚ) (n w : ℕ) (hw : w ≠ 0) (hwn : w ≤ n) :
    rollingMeanLast (List.replicate n x) w = x := by
  unfold rollingMeanLast
  rw [List.length_replicate, List.drop_replicate, List.sum_replicate,
      Nat.sub_sub_self hwn, nsmul_eq_mul]
  exact mul_div_cancel_left₀ x (Nat.cast_ne_zero.mpr hw)

/-- Last element of a nonempty constant list. -/
lemma getLastD_replicate (x : ℚ) : ∀ (n : ℕ) (d : ℚ),
    (List.replicate (n + 1) x).getLastD d = x
  | 0, _ => rfl
  | n + 1, _ => by
      rw [List.replicate_succ, List.getLastD_cons]
      exact getLastD_replicate x n x

/-- `atrStep` leaves `paused` unchanged. -/
lemma atrStep_paused (cfg : HarvesterConfig) (s : StrategyStateData)
    (c : Option (List Candle)) : ((atrStep cfg s c).1).paused = s.paused := by
  cases c with
  | none => rfl
  | some cs =>
      simp only [atrStep]
      split <;> rfl

/-- `atrStep` leaves `pause_reason` unchanged. -/
lemma atrStep_pause_reason (cfg : HarvesterConfig) (s : StrategyStateData)
    (c : Option (List Candle)) : ((atrStep cfg s c).1).pause_reason = s.pause_reason := by
  cases c with
  | none => rfl
  | some cs =>
      simp only [atrStep]
      split <;> rfl

end VolHarv

namespace VolHarv

/-! ### Concrete fixtures for the strategy-engine claims -/

/-- A flat candle: high = low = close = 100 (true range 0). -/
def flat100 : Candle := ⟨100, 100, 100⟩

/-- 200 flat candles: enough rows for the default 200-bar long moving
average, with both moving averages equal (trend filter unfavourable). -/
def candlesC1 : List Candle := List.replicate 200 flat100

/-- Harvester configured non-adaptively with 5% thresholds and the trend
filter enabled at the config defaults `ma_short = 50`, `ma_long = 200`. -/
def cfgC1 : HarvesterConfig := ⟨5, 5, false, 2, 8, true, 50, 200⟩

/-- A LONG, unpaused state with entry price 100. -/
def stateC1 : StrategyStateData := { state := .LONG, last_buy_price := some 100 }

/-- Harvester at the config defaults (adaptive, trend filter disabled). -/
def cfgDefault : HarvesterConfig := ⟨5, 5, true, 2, 8, false, 50, 200⟩

/-- `candlesC1` has 200 rows. -/
lemma candlesC1_length : candlesC1.length = 200 := by
  rw [candlesC1, List.length_replicate]

/-- The flat-candle window computes ATR% 0. -/
lemma atr_candlesC1 : calculate_atr_pct candlesC1 14 = 0 := by
  unfold calculate_atr_pct
  have htr : trueRanges candlesC1 = List.replicate 200 0 := by
    have h := trueRanges_const flat100 (by norm_num [flat100]) 200
    rw [show flat100.high - flat100.low = (0:ℚ) from by norm_num [flat100]] at h
    rw [candlesC1]
    exact h
  have hclose : (candlesC1.map Candle.close).getLastD 0 = 100 := by
    rw [candlesC1, List.map_replicate, show (200 : ℕ) = 199 + 1 from rfl]
    exact getLastD_replicate _ 199 _
  rw [candlesC1_length, if_neg (by norm_num), htr, hclose, if_neg (by norm_num),
      rollingMeanLast_replicate 0 200 14 (by norm_num) (by norm_num)]
  norm_num

/-- On 200 flat candles the two moving averages coincide, so the trend filter
(enabled in `cfgC1`) reports an unfavourable trend. -/
lemma trend_candlesC1 : check_trend_filter cfgC1 candlesC1 = false := by
  have h50 : rollingMeanLast (candlesC1.map Candle.close) 50 = 100 := by
    rw [candlesC1, List.map_replicate]
    exact rollingMeanLast_replicate _ 200 50 (by norm_num) (by norm_num)
  have h200 : rollingMeanLast (candlesC1.map Candle.close) 200 = 100 := by
    rw [candlesC1, List.map_replicate]
    exact rollingMeanLast_replicate _ 200 200 (by norm_num) (by norm_num)
  unfold check_trend_filter
  rw [candlesC1_length]
  simp only [cfgC1]
  norm_num [h50, h200]

/-! ### C1: the trend filter blocks SELL as well as BUY -/

/-- C1 counterexample: in `stateC1` (LONG, unpaused, entry 100) at mid 110 the
rise is 10%, at or above the effective 5% sell threshold, yet with the trend
filter unfavourable on the supplied candles `generate_signal` does not emit
SELL — it returns the trend-filter HOLD. -/
theorem C1_trend_filter_counterexample :
    stateC1.paused = false ∧
    stateC1.state = .LONG ∧
    stateC1.last_buy_price = some 100 ∧
    (atrStep cfgC1 stateC1 (some candlesC1)).2.2 ≤
      (((⟨110, 110⟩ : MarketData)).mid - 100) / 100 * 100 ∧
    (generate_signal cfgC1 stateC1 ⟨110, 110⟩ (some candlesC1)).2.signal_type ≠ .sell := by
  have hth : (atrStep cfgC1 stateC1 (some candlesC1)).2.2 = 5 := by
    unfold atrStep
    dsimp only
    rw [if_pos (by rw [candlesC1_length]; norm_num : 15 ≤ candlesC1.length)]
    simp [adapt_thresholds, cfgC1]
  have hts : trendSuppressed cfgC1 (some candlesC1) = true := by
    simp [trendSuppressed, trend_candlesC1]
  have hpa : ((atrStep cfgC1 stateC1 (some candlesC1)).1).paused = false := by
    rw [atrStep_paused]
    rfl
  refine ⟨rfl, rfl, rfl, ?_, ?_⟩
  · rw [hth]
    norm_num [MarketData.mid]
  · simp [generate_signal, hts, hpa]

/-- C1 (amended): whenever candles are supplied and the trend filter reports
an unfavourable trend, `generate_signal` returns the trend-filter HOLD in
every unpaused state — including LONG states whose rise has reached the sell
threshold. The filter gate sits before the state machine, so it suppresses
SELL exactly as it suppresses BUY. -/
theorem C1_trend_filter_blocks_sell (cfg : HarvesterConfig) (s : StrategyStateData)
    (md : MarketData) (cs : List Candle)
    (hp : s.paused = false) (_hl : s.state = StrategyState.LONG)
    (ht : check_trend_filter cfg cs = false) :
    (generate_signal cfg s md (some cs)).2.signal_type = .hold ∧
    (generate_signal cfg s md (some cs)).2.reason = .trendBearish := by
  have hpa : ((atrStep cfg s (some cs)).1).paused = false := by
    rw [atrStep_paused]
    exact hp
  have hts : trendSuppressed cfg (some cs) = true := by
    simp [trendSuppressed, ht]
  simp [generate_signal, hpa, hts]

/-- C1 witness: the amended theorem at the concrete LONG fixture. -/
theorem C1_trend_filter_blocks_sell_witness :
    (generate_signal cfgC1 stateC1 ⟨110, 110⟩ (some candlesC1)).2.signal_type = .hold ∧
    (generate_signal cfgC1 stateC1 ⟨110, 110⟩ (some candlesC1)).2.reason = .trendBearish :=
  C1_trend_filter_blocks_sell cfgC1 stateC1 ⟨110, 110⟩ candlesC1 rfl rfl trend_candlesC1

/-! ### C3: the paused path returns HOLD but still writes the ATR fields -/

/-- A candle 102/98/100: true range 4, dominating the close gaps. -/
def dipCandle : Candle := ⟨102, 98, 100⟩

/-- 15 such candles: exactly enough rows for the ATR branch to run. -/
def candlesC3 : List Candle := List.replicate 15 dipCandle

/-- A paused state with an unset volatility estimate. -/
def stateC3 : StrategyStateData :=
  { paused := true, pause_reason := some "circuit breaker" }

/-- The dip-candle window computes ATR% 4. -/
lemma atr_candlesC3 : calculate_atr_pct candlesC3 14 = 4 := by
  unfold calculate_atr_pct
  have hlen : candlesC3.length = 15 := by rw [candlesC3, List.length_replicate]
  have htr : trueRanges candlesC3 = List.replicate 15 4 := by
    have h := trueRanges_const dipCandle (by norm_num [dipCandle]) 15
    rw [show dipCandle.high - dipCandle.low = (4:ℚ) from by norm_num [dipCandle]] at h
    rw [candlesC3]
    exact h
  have hclose : (candlesC3.map Candle.close).getLastD 0 = 100 := by
    rw [candlesC3, List.map_replicate, show (15 : ℕ) = 14 + 1 from rfl]
    exact getLastD_replicate _ 14 _
  rw [hlen, if_neg (by norm_num), htr, hclose, if_neg (by norm_num),
      rollingMeanLast_replicate 4 15 14 (by norm_num) (by norm_num)]
  norm_num

/-- C3 (amended): on a paused state `generate_signal` returns HOLD citing the
pause reason and performs no state-machine mutation, but the ATR bookkeeping
at the head of the function still runs first: the returned state is exactly
`atrStep`'s, which preserves every field except `atr_pct` and the two
adaptive thresholds (and equals the input state when no window is supplied). -/
theorem C3_paused_returns_hold (cfg : HarvesterConfig) (s : StrategyStateData)
    (md : MarketData) (copt : Option (List Candle)) (hp : s.paused = true) :
    (generate_signal cfg s md copt).2 =
      ⟨.hold, md.mid, .pausedR s.pause_reason⟩ ∧
    (generate_signal cfg s md copt).1 = (atrStep cfg s copt).1 ∧
    ((generate_signal cfg s md copt).1.state = s.state ∧
     (generate_signal cfg s md copt).1.last_peak = s.last_peak ∧
     (generate_signal cfg s md copt).1.last_trough = s.last_trough ∧
     (generate_signal cfg s md copt).1.last_buy_price = s.last_buy_price ∧
     (generate_signal cfg s md copt).1.last_sell_price = s.last_sell_price ∧
     (generate_signal cfg s md copt).1.current_position_qty = s.current_position_qty ∧
     (generate_signal cfg s md copt).1.realized_pnl = s.realized_pnl ∧
     (generate_signal cfg s md copt).1.unrealized_pnl = s.unrealized_pnl ∧
     (generate_signal cfg s md copt).1.total_equity = s.total_equity ∧
     (generate_signal cfg s md copt).1.peak_equity = s.peak_equity ∧
     (generate_signal cfg s md copt).1.current_drawdown_pct = s.current_drawdown_pct ∧
     (generate_signal cfg s md copt).1.consecutive_losses = s.consecutive_losses ∧
     (generate_signal cfg s md copt).1.consecutive_wins = s.consecutive_wins ∧
     (generate_signal cfg s md copt).1.total_trades = s.total_trades ∧
     (generate_signal cfg s md copt).1.winning_trades = s.winning_trades ∧
     (generate_signal cfg s md copt).1.paused = s.paused ∧
     (generate_signal cfg s md copt).1.pause_reason = s.pause_reason) ∧
    (copt = none → (generate_signal cfg s md copt).1 = s) := by
  have hps : ((atrStep cfg s copt).1).paused = true := by
    rw [atrStep_paused]
    exact hp
  have hred : generate_signal cfg s md copt =
      ((atrStep cfg s copt).1,
       ⟨.hold, md.mid, .pausedR s.pause_reason⟩) := by
    simp [generate_signal, hps, atrStep_pause_reason]
  refine ⟨by rw [hred], by rw [hred], ?_, ?_⟩
  · rw [hred]
    exact atrStep_frame cfg s copt
  · intro h
    subst h
    rw [hred]
    rfl

/-- C3 witness: the theorem at a concrete paused state with no window. -/
theorem C3_paused_returns_hold_witness :
    (generate_signal cfgDefault stateC3 ⟨100, 102⟩ none).2 =
      ⟨.hold, (⟨100, 102⟩ : MarketData).mid, .pausedR stateC3.pause_reason⟩ ∧
    (generate_signal cfgDefault stateC3 ⟨100, 102⟩ none).1 =
      (atrStep cfgDefault stateC3 none).1 ∧
    ((generate_signal cfgDefault stateC3 ⟨100, 102⟩ none).1.state = stateC3.state ∧
     (generate_signal cfgDefault stateC3 ⟨100, 102⟩ none).1.last_peak = stateC3.last_peak ∧
     (generate_signal cfgDefault stateC3 ⟨100, 102⟩ none).1.last_trough = stateC3.last_trough ∧
     (generate_signal cfgDefault stateC3 ⟨100, 102⟩ none).1.last_buy_price = stateC3.last_buy_price ∧
     (generate_signal cfgDefault stateC3 ⟨100, 102⟩ none).1.last_sell_price = stateC3.last_sell_price ∧
     (generate_signal cfgDefault stateC3 ⟨100, 102⟩ none).1.current_position_qty = stateC3.current_position_qty ∧
     (generate_signal cfgDefault stateC3 ⟨100, 102⟩ none).1.realized_pnl = stateC3.realized_pnl ∧
     (generate_signal cfgDefault stateC3 ⟨100, 102⟩ none).1.unrealized_pnl = stateC3.unrealized_pnl ∧
     (generate_signal cfgDefault stateC3 ⟨100, 102⟩ none).1.total_equity = stateC3.total_equity ∧
     (generate_signal cfgDefault stateC3 ⟨100, 102⟩ none).1.peak_equity = stateC3.peak_equity ∧
     (generate_signal cfgDefault stateC3 ⟨100, 102⟩ none).1.current_drawdown_pct = stateC3.current_drawdown_pct ∧
     (generate_signal cfgDefault stateC3 ⟨100, 102⟩ none).1.consecutive_losses = stateC3.consecutive_losses ∧
     (generate_signal cfgDefault stateC3 ⟨100, 102⟩ none).1.consecutive_wins = stateC3.consecutive_wins ∧
     (generate_signal cfgDefault stateC3 ⟨100, 102⟩ none).1.total_trades = stateC3.total_trades ∧
     (generate_signal cfgDefault stateC3 ⟨100, 102⟩ none).1.winning_trades = stateC3.winning_trades ∧
     (generate_signal cfgDefault stateC3 ⟨100, 102⟩ none).1.paused = stateC3.paused ∧
     (generate_signal cfgDefault stateC3 ⟨100, 102⟩ none).1.pause_reason = stateC3.pause_reason) ∧
    ((none : Option (List Candle)) = none →
      (generate_signal cfgDefault stateC3 ⟨100, 102⟩ none).1 = stateC3) :=
  C3_paused_returns_hold cfgDefault stateC3 ⟨100, 102⟩ none rfl

/-- C3 counterexample: on a paused state supplied with a 15-candle window the
signal is the pause HOLD, yet the state is mutated — `atr_pct` goes from
`none` to `some 4` — refuting "leaves the state entirely unchanged". -/
theorem C3_paused_mutation_counterexample :
    stateC3.paused = true ∧
    stateC3.atr_pct = none ∧
    ((generate_signal cfgDefault stateC3 ⟨100, 102⟩ (some candlesC3)).1).atr_pct
      = some 4 ∧
    (generate_signal cfgDefault stateC3 ⟨100, 102⟩ (some candlesC3)).1 ≠ stateC3 := by
  have hps : ((atrStep cfgDefault stateC3 (some candlesC3)).1).paused = true := by
    rw [atrStep_paused]
    rfl
  have hatr : ((generate_signal cfgDefault stateC3 ⟨100, 102⟩ (some candlesC3)).1).atr_pct
      = some 4 := by
    have h1 : (generate_signal cfgDefault stateC3 ⟨100, 102⟩ (some candlesC3)).1 =
        (atrStep cfgDefault stateC3 (some candlesC3)).1 := by
      simp [generate_signal, hps]
    rw [h1]
    unfold atrStep
    dsimp only
    rw [if_pos (show (15:ℕ) ≤ candlesC3.length by
      rw [candlesC3, List.length_replicate])]
    dsimp only
    rw [atr_candlesC3]
  refine ⟨rfl, rfl, hatr, ?_⟩
  intro h
  rw [h] at hatr
  simp [stateC3] at hatr

/-! ### C8: FLAT-mode peak tracking and BUY trigger -/

/-- Closed form of `generate_signal` on the unsuppressed FLAT branch: the
peak is raised to `max (last_peak ?? mid) mid` and the signal is BUY or HOLD
by the threshold comparison on the updated peak. -/
lemma generate_signal_flat (cfg : HarvesterConfig) (s : StrategyStateData)
    (md : MarketData) (copt : Option (List Candle))
    (hp : s.paused = false) (hf : s.state = .FLAT)
    (ht : trendSuppressed cfg copt = false) :
    generate_signal cfg s md copt =
      ({ (atrStep cfg s copt).1 with
          last_peak := some (max (s.last_peak.getD md.mid) md.mid) },
       if (atrStep cfg s copt).2.1 ≤
            (max (s.last_peak.getD md.mid) md.mid - md.mid) /
              max (s.last_peak.getD md.mid) md.mid * 100 then
         ⟨.buy, md.mid,
           .droppedFromPeak
             ((max (s.last_peak.getD md.mid) md.mid - md.mid) /
               max (s.last_peak.getD md.mid) md.mid * 100)
             (max (s.last_peak.getD md.mid) md.mid)⟩
       else ⟨.hold, md.mid, .noTrigger⟩) := by
  have hpa : ((atrStep cfg s copt).1).paused = false := by
    rw [atrStep_paused]
    exact hp
  have hst : ((atrStep cfg s copt).1).state = StrategyState.FLAT := by
    rw [(atrStep_frame cfg s copt).1]
    exact hf
  have hlp : ((atrStep cfg s copt).1).last_peak = s.last_peak :=
    (atrStep_frame cfg s copt).2.1
  simp only [generate_signal, hpa, ht, Bool.false_eq_true, if_false, hst, hlp]
  rcases s.last_peak with _ | pk
  · simp only [Option.getD_none, max_self]
    split_ifs with hb <;> simp [hb]
  · have hmax : (if pk < md.mid then md.mid else pk) = max pk md.mid := by
      split_ifs with h'
      · exact (max_eq_right h'.le).symm
      · exact (max_eq_left (not_lt.mp h')).symm
    simp only [Option.getD_some, hmax]
    split_ifs with hb <;> simp [hb]

/-- C8: in an unpaused FLAT state with no trend-filter suppression (and a
positive mid, where the Python division is defined), `generate_signal` first
raises `last_peak` to `max (last_peak ?? mid) mid` and then emits BUY exactly
when `(last_peak − price)/last_peak × 100` reaches the effective buy
threshold, otherwise HOLD; and the spec scenario: with `last_peak = 50000`
and a 5% threshold, BUY fires at every price ≤ 47500 and not at 47501. -/
theorem C8_flat_buy_rule :
    (∀ (cfg : HarvesterConfig) (s : StrategyStateData) (md : MarketData)
        (copt : Option (List Candle)),
      s.paused = false → s.state = .FLAT → trendSuppressed cfg copt = false →
      0 < md.mid →
      ((generate_signal cfg s md copt).1.last_peak =
        some (max (s.last_peak.getD md.mid) md.mid)) ∧
      ((generate_signal cfg s md copt).2.signal_type = .buy ↔
        (atrStep cfg s copt).2.1 ≤
          (max (s.last_peak.getD md.mid) md.mid - md.mid) /
            max (s.last_peak.getD md.mid) md.mid * 100) ∧
      ((generate_signal cfg s md copt).2.signal_type = .buy ∨
        (generate_signal cfg s md copt).2.signal_type = .hold)) ∧
    (∀ q : ℚ, q ≤ 47500 →
      (generate_signal cfgDefault { state := .FLAT, last_peak := some 50000 }
        ⟨q, q⟩ none).2.signal_type = .buy) ∧
    (generate_signal cfgDefault { state := .FLAT, last_peak := some 50000 }
      ⟨47501, 47501⟩ none).2.signal_type = .hold := by
  refine ⟨?_, ?_, ?_⟩
  · intro cfg s md copt hp hf ht hm
    rw [generate_signal_flat cfg s md copt hp hf ht]
    refine ⟨by simp, ?_, ?_⟩
    · split_ifs with hb <;> simp [hb]
    · split_ifs <;> simp
  · intro q hq
    have hmid : ((⟨q, q⟩ : MarketData)).mid = q := by
      simp [MarketData.mid]
    have hpk : ¬((50000:ℚ) < q) := by linarith
    have hcond : (5:ℚ) ≤ (50000 - q) / 50000 * 100 := by
      rw [div_mul_eq_mul_div, le_div_iff₀ (by norm_num : (0:ℚ) < 50000)]
      linarith
    simp [generate_signal, atrStep, trendSuppressed, cfgDefault, hmid, hpk, hcond]
  · norm_num [generate_signal, atrStep, trendSuppressed, cfgDefault, MarketData.mid]

/-! ### C9: zero reserve falls back to the configured default -/

/-- C9: `calculate_position_size` with `reserve_pct` explicitly `0` behaves as
if the argument were omitted (the Python `or` treats `Decimal("0")` as
absent), so with the configured default reserve of 8% the result never equals
`available_capital / price` for positive inputs. -/
theorem C9_zero_reserve_is_default (available price : ℚ) :
    calculate_position_size 8 available price (some 0) =
      calculate_position_size 8 available price none ∧
    (0 < available → 0 < price →
      calculate_position_size 8 available price (some 0) ≠ available / price) := by
  constructor
  · rfl
  · intro ha hp h
    simp only [calculate_position_size] at h
    norm_num at h
    split_ifs at h with h0
    · nlinarith
    · rw [div_eq_div_iff (ne_of_gt hp) (ne_of_gt hp)] at h
      nlinarith

/-- C9 witness: concrete positive input. -/
theorem C9_zero_reserve_is_default_witness :
    calculate_position_size 8 10000 100 (some 0) =
      calculate_position_size 8 10000 100 none ∧
    calculate_position_size 8 10000 100 (some 0) ≠ 10000 / 100 :=
  ⟨(C9_zero_reserve_is_default 10000 100).1,
   (C9_zero_reserve_is_default 10000 100).2 (by norm_num) (by norm_num)⟩

/-! ### C10: break-even trades count as losses -/

/-- C10: `update_state_after_sell` with `realized_pnl = 0` takes the loss
branch (`if realized_pnl > 0` fails): the consecutive-loss streak grows by
one, the win streak resets, `winning_trades` is unchanged and `total_trades`
grows by one; the grown streak is exactly what
`check_consecutive_losses` reads. -/
theorem C10_breakeven_is_loss (s : StrategyStateData) (fp : ℚ) (cfg : RiskSettings) :
    (update_state_after_sell s fp 0).consecutive_losses = s.consecutive_losses + 1 ∧
    (update_state_after_sell s fp 0).consecutive_wins = 0 ∧
    (update_state_after_sell s fp 0).winning_trades = s.winning_trades ∧
    (update_state_after_sell s fp 0).total_trades = s.total_trades + 1 ∧
    (cfg.max_consecutive_losses ≤ s.consecutive_losses + 1 →
      (check_consecutive_losses cfg (update_state_after_sell s fp 0)).1 = true) := by
  refine ⟨by simp [update_state_after_sell], by simp [update_state_after_sell],
          by simp [update_state_after_sell], by simp [update_state_after_sell], ?_⟩
  intro hle
  simp [update_state_after_sell, check_consecutive_losses, hle]

/-! ### C7: adaptive-threshold shape -/

/-- The adapted threshold in adaptive mode as a three-branch formula. -/
lemma adapt_fst (cfg : HarvesterConfig) (hA : cfg.adaptive = true) (a : ℚ) :
    (adapt_thresholds cfg a).1 =
      if a ≤ 2 then cfg.min_swing_pct
      else if 6 ≤ a then cfg.max_swing_pct
      else cfg.min_swing_pct + (a - 2) / 4 * (cfg.max_swing_pct - cfg.min_swing_pct) := by
  simp only [adapt_thresholds, hA, not_true, if_false, ge_iff_le]
  norm_num

/-- C7: in adaptive mode with a validated config (`min_swing ≤ max_swing`),
the adapted threshold is monotone in volatility, bounded to
`[min_swing_pct, max_swing_pct]`, equal to the min at or below ATR 2%, equal
to the max at or above ATR 6%, linear in between; and the spec's scenario with
swings `[2,8]`: volatility 1.5% gives `(2,2)`, volatility 7% gives `(8,8)`. -/
theorem C7_adapt_thresholds_shape :
    (∀ cfg : HarvesterConfig, cfg.adaptive = true →
      cfg.min_swing_pct ≤ cfg.max_swing_pct →
      (∀ a₁ a₂ : ℚ, a₁ ≤ a₂ →
        (adapt_thresholds cfg a₁).1 ≤ (adapt_thresholds cfg a₂).1) ∧
      (∀ a : ℚ, cfg.min_swing_pct ≤ (adapt_thresholds cfg a).1 ∧
        (adapt_thresholds cfg a).1 ≤ cfg.max_swing_pct) ∧
      (∀ a : ℚ, a ≤ 2 → (adapt_thresholds cfg a).1 = cfg.min_swing_pct) ∧
      (∀ a : ℚ, 6 ≤ a → (adapt_thresholds cfg a).1 = cfg.max_swing_pct) ∧
      (∀ a : ℚ, 2 < a → a < 6 →
        (adapt_thresholds cfg a).1 =
          cfg.min_swing_pct + (a - 2) / 4 * (cfg.max_swing_pct - cfg.min_swing_pct))) ∧
    adapt_thresholds ⟨5, 5, true, 2, 8, false, 50, 200⟩ (3/2) = (2, 2) ∧
    adapt_thresholds ⟨5, 5, true, 2, 8, false, 50, 200⟩ 7 = (8, 8) := by
  refine ⟨?_, by norm_num [adapt_thresholds], by norm_num [adapt_thresholds]⟩
  intro cfg hA hle
  refine ⟨?_, ?_, ?_, ?_, ?_⟩
  · intro a₁ a₂ h12
    rw [adapt_fst cfg hA, adapt_fst cfg hA]
    split_ifs <;> first | linarith | nlinarith
  · intro a
    rw [adapt_fst cfg hA]
    split_ifs <;> constructor <;> first | linarith | nlinarith
  · intro a h
    rw [adapt_fst cfg hA, if_pos h]
  · intro a h
    rw [adapt_fst cfg hA, if_neg (by linarith), if_pos h]
  · intro a h2 h6
    rw [adapt_fst cfg hA, if_neg (by linarith), if_neg (by linarith)]

/-! ### C6: drawdown bookkeeping -/

/-- C6 counterexample: with equity `-50` against a peak of `100`, the
recomputed drawdown is `150`, outside `[0,100]` — the claim's universal
`current_drawdown_pct ∈ [0,100]` fails on states with negative equity. -/
theorem C6_drawdown_counterexample :
    (update_drawdown { total_equity := -50, peak_equity := 100 }).current_drawdown_pct
      = 150 ∧
    ¬((update_drawdown
        { total_equity := -50, peak_equity := 100 }).current_drawdown_pct ≤ 100) := by
  norm_num [update_drawdown]

/-- Normal form of `update_drawdown`: peak becomes the max of peak and
equity, the drawdown field follows the three source branches. -/
lemma update_drawdown_eq (s : StrategyStateData) :
    update_drawdown s =
      { s with peak_equity := max s.peak_equity s.total_equity,
               current_drawdown_pct :=
                 if s.peak_equity < s.total_equity then 0
                 else if 0 < s.peak_equity then
                   (s.peak_equity - s.total_equity) / s.peak_equity * 100
                 else s.current_drawdown_pct } := by
  unfold update_drawdown
  split_ifs with h1 h2
  · rw [max_eq_right h1.le]
  · rw [max_eq_left (not_lt.mp h1)]
  · rw [max_eq_left (not_lt.mp h1)]

/-- Normal form of `sync_state`: the copied fields, the peak as a max, and
the drawdown recomputed against the new peak. -/
lemma sync_state_eq (pf : Portfolio) (s : StrategyStateData) (p : ℚ) :
    sync_state pf s p =
      { s with total_equity := get_equity pf p,
               unrealized_pnl := get_unrealized_pnl pf p,
               realized_pnl := pf.realized_pnl,
               current_position_qty := pf.btc,
               peak_equity := max s.peak_equity (get_equity pf p),
               current_drawdown_pct :=
                 if 0 < max s.peak_equity (get_equity pf p) then
                   (max s.peak_equity (get_equity pf p) - get_equity pf p) /
                     max s.peak_equity (get_equity pf p) * 100
                 else 0 } := by
  unfold sync_state
  dsimp only
  by_cases h1 : s.peak_equity < get_equity pf p
  · rw [if_pos h1, max_eq_right h1.le]
    dsimp only
    split_ifs with h2 <;> rfl
  · rw [if_neg h1, max_eq_left (not_lt.mp h1)]
    dsimp only
    split_ifs with h2 <;> rfl

/-- C6 (amended): both drawdown updaters keep `peak_equity` monotone, set the
drawdown to `0` whenever equity makes a new peak, and are idempotent at fixed
equity; the `[0,100]` bound on `current_drawdown_pct` holds provided the
equity is nonnegative (and, for `update_drawdown`, the prior drawdown was in
range — the zero-peak branch leaves the field untouched). -/
theorem C6_drawdown_bookkeeping :
    (∀ s : StrategyStateData, s.peak_equity ≤ (update_drawdown s).peak_equity) ∧
    (∀ s : StrategyStateData, s.peak_equity < s.total_equity →
      (update_drawdown s).peak_equity = s.total_equity ∧
      (update_drawdown s).current_drawdown_pct = 0) ∧
    (∀ s : StrategyStateData, update_drawdown (update_drawdown s) = update_drawdown s) ∧
    (∀ s : StrategyStateData, 0 ≤ s.total_equity →
      0 ≤ s.current_drawdown_pct → s.current_drawdown_pct ≤ 100 →
      0 ≤ (update_drawdown s).current_drawdown_pct ∧
      (update_drawdown s).current_drawdown_pct ≤ 100) ∧
    (∀ (pf : Portfolio) (s : StrategyStateData) (p : ℚ),
      s.peak_equity ≤ (sync_state pf s p).peak_equity) ∧
    (∀ (pf : Portfolio) (s : StrategyStateData) (p : ℚ),
      s.peak_equity < get_equity pf p →
      (sync_state pf s p).peak_equity = get_equity pf p ∧
      (sync_state pf s p).current_drawdown_pct = 0) ∧
    (∀ (pf : Portfolio) (s : StrategyStateData) (p : ℚ),
      sync_state pf (sync_state pf s p) p = sync_state pf s p) ∧
    (∀ (pf : Portfolio) (s : StrategyStateData) (p : ℚ), 0 ≤ get_equity pf p →
      0 ≤ (sync_state pf s p).current_drawdown_pct ∧
      (sync_state pf s p).current_drawdown_pct ≤ 100) := by
  refine ⟨?_, ?_, ?_, ?_, ?_, ?_, ?_, ?_⟩
  · intro s
    rw [update_drawdown_eq]
    exact le_max_left _ _
  · intro s h
    rw [update_drawdown_eq]
    exact ⟨max_eq_right h.le, by simp [if_pos h]⟩
  · intro s
    rw [update_drawdown_eq, update_drawdown_eq]
    by_cases h1 : s.peak_equity < s.total_equity
    · simp only [if_pos h1, max_eq_right h1.le]
      have h2 : ¬(s.total_equity < s.total_equity) := lt_irrefl _
      simp only [if_neg h2]
      by_cases h3 : 0 < s.total_equity
      · simp [if_pos h3]
      · simp [if_neg h3]
    · simp only [if_neg h1, max_eq_left (not_lt.mp h1)]
      by_cases h2 : 0 < s.peak_equity
      · simp [if_pos h2, if_neg h1]
      · simp [if_neg h2, if_neg h1]
  · intro s h0 hd0 hd1
    rw [update_drawdown_eq]
    simp only
    split_ifs with h1 h2
    · exact ⟨le_refl 0, by norm_num⟩
    · push_neg at h1
      constructor
      · apply mul_nonneg (div_nonneg (by linarith) h2.le) (by norm_num)
      · rw [div_mul_eq_mul_div, div_le_iff₀ h2]
        nlinarith
    · exact ⟨hd0, hd1⟩
  · intro pf s p
    rw [sync_state_eq]
    exact le_max_left _ _
  · intro pf s p h
    rw [sync_state_eq]
    refine ⟨max_eq_right h.le, ?_⟩
    simp only [max_eq_right h.le]
    split_ifs with h2
    · simp
    · rfl
  · intro pf s p
    rw [sync_state_eq pf s p, sync_state_eq]
    have hm : max (max s.peak_equity (get_equity pf p)) (get_equity pf p) =
        max s.peak_equity (get_equity pf p) := by
      rw [max_assoc, max_self]
    simp [hm]
  · intro pf s p h0
    rw [sync_state_eq]
    simp only
    have hle : get_equity pf p ≤ max s.peak_equity (get_equity pf p) := le_max_right _ _
    split_ifs with h1
    · constructor
      · apply mul_nonneg (div_nonneg (by linarith) h1.le) (by norm_num)
      · rw [div_mul_eq_mul_div, div_le_iff₀ h1]
        nlinarith
    · exact ⟨le_refl 0, by norm_num⟩

/-! ### C5: circuit-breaker priority order -/

/-- C5: `check_all_circuit_breakers` agrees with first-true-wins over the six
breaker predicates in the order drawdown, consecutive losses, daily loss,
volatility band (below-minimum tagged `LOW_VOLATILITY`, above-maximum
`HIGH_VOLATILITY`), spread, stale heartbeat (`specFirstBreaker`, written from
the spec's enumeration); and a missing heartbeat is immediately stale. -/
theorem C5_breaker_priority :
    (∀ (cfg : RiskSettings) (rm : RiskManager) (s : StrategyStateData)
        (md : MarketData) (hb : Option UTCTime) (now : UTCTime),
      ((check_all_circuit_breakers cfg rm s md hb now).2.1,
       (check_all_circuit_breakers cfg rm s md hb now).2.2.1) =
        specFirstBreaker cfg rm s md hb now) ∧
    (∀ (cfg : RiskSettings) (now : UTCTime),
      check_stale_data cfg none now = (true, some .noHeartbeat)) := by
  constructor
  · intro cfg rm s md hb now
    unfold check_all_circuit_breakers specFirstBreaker
    split_ifs with h1 h2 h3 h4 h5 h6
    · rfl
    · rfl
    · rfl
    · revert h4
      rcases s.atr_pct with _ | a
      · intro h4
        simp [check_volatility_bounds] at h4
      · intro h4
        by_cases hlo : a < cfg.min_activity_pct
        · simp [check_volatility_bounds, volTag, containsTooChoppy, hlo]
        · by_cases hhi : cfg.max_activity_pct < a
          · simp [check_volatility_bounds, volTag, containsTooChoppy, hlo, hhi]
          · simp [check_volatility_bounds, hlo, hhi] at h4
    · rfl
    · rfl
    · rfl
  · intro cfg now
    rfl

/-! ### C10: break-even trades count as losses (theorem below) -/

/-! ### C2: round-trip realized P&L -/

/-- C2 counterexample: buying 1 unit at 100 with fee 1 then selling at 110
with fee 2 records realized P&L `8` in the strategy state (buy fee never
subtracted) and `-2` in the ledger's own field — not the claimed
`q×(p′−p) − f1 − f2 = 7`. -/
theorem C2_roundtrip_counterexample :
    backtestRoundTrip ⟨1000, 0, 1000, 0⟩ {} 1 100 1 110 2 =
      .ok (⟨1007, 0, 1000, -2⟩,
           { state := .FLAT, last_peak := some 110, last_trough := some 100,
             last_buy_price := some 100, last_sell_price := some 110,
             current_position_qty := 0, realized_pnl := 8,
             consecutive_wins := 1, total_trades := 1, winning_trades := 1 }) ∧
    (8 : ℚ) ≠ 1 * (110 - 100) - 1 - 2 ∧
    (-2 : ℚ) ≠ 1 * (110 - 100) - 1 - 2 := by
  refine ⟨?_, by norm_num, by norm_num⟩
  norm_num [backtestRoundTrip, execute_buy, execute_sell, update_state_after_buy,
    update_state_after_sell]

/-- C2 (amended): a funded round trip through the driver bookkeeping adds
exactly `q×(p′−p) − f2` to the strategy state's realized P&L (the buy fee is
paid from cash but never enters the recorded P&L), while the ledger's own
realized-P&L field moves by `−f2`; the full `q×(p′−p) − f1 − f2` appears only
as the net cash change. -/
theorem C2_roundtrip_pnl (pf : Portfolio) (s : StrategyStateData)
    (q p f1 pq f2 : ℚ)
    (hcash : ¬(pf.cash < q * p + f1)) (hbtc : ¬(pf.btc + q < q)) :
    ∃ pf2 s2,
      backtestRoundTrip pf s q p f1 pq f2 = .ok (pf2, s2) ∧
      s2.realized_pnl = s.realized_pnl + (q * (pq - p) - f2) ∧
      pf2.realized_pnl = pf.realized_pnl - f2 ∧
      pf2.cash = pf.cash + q * (pq - p) - f1 - f2 ∧
      pf2.btc = pf.btc := by
  unfold backtestRoundTrip execute_buy execute_sell
  dsimp only
  rw [if_neg hcash]
  dsimp only
  rw [if_neg hbtc]
  dsimp only
  refine ⟨_, _, rfl, ?_, ?_, ?_, ?_⟩
  · simp only [update_state_after_sell, update_state_after_buy]
    split_ifs <;> dsimp only <;> ring
  · dsimp only
    ring
  · dsimp only
    ring
  · dsimp only
    ring

/-- C2 witness: the amended theorem at the counterexample's concrete trade. -/
theorem C2_roundtrip_pnl_witness :
    ∃ pf2 s2,
      backtestRoundTrip ⟨1000, 0, 1000, 0⟩ {} 1 100 1 110 2 = .ok (pf2, s2) ∧
      s2.realized_pnl = ({} : StrategyStateData).realized_pnl + (1 * (110 - 100) - 2) ∧
      pf2.realized_pnl = (⟨1000, 0, 1000, 0⟩ : Portfolio).realized_pnl - 2 ∧
      pf2.cash = (⟨1000, 0, 1000, 0⟩ : Portfolio).cash + 1 * (110 - 100) - 1 - 2 ∧
      pf2.btc = (⟨1000, 0, 1000, 0⟩ : Portfolio).btc :=
  C2_roundtrip_pnl ⟨1000, 0, 1000, 0⟩ {} 1 100 1 110 2 (by norm_num) (by norm_num)

/-! ### C4: error signalling -/

/-- C4 counterexample: the ledger signals business-rule failures by raising
`ValueError` — insufficient cash on `execute_buy`, insufficient position on
`execute_sell` — not by returning a structured failure value. -/
theorem C4_portfolio_raises_counterexample :
    execute_buy ⟨50, 0, 50, 0⟩ 1 100 0 = .raised (.insufficientCash 50 100) ∧
    execute_sell ⟨0, 0, 0, 0⟩ 1 100 0 = .raised (.insufficientBtc 0 1) := by
  constructor
  · norm_num [execute_buy]
  · norm_num [execute_sell]

/-- C4 (amended): the execution engine returns every outcome as a structured
`(success, fill, error)` triple — never an exception — with below-minimum
notional and taker non-fill mapped to failure triples; the Portfolio ledger,
by contrast, raises `ValueError` for insufficient balance and insufficient
position. -/
theorem C4_error_signalling :
    (∀ (env : ExecEnv) (q : ℚ) (md : MarketData) (mf : Bool),
      ∃ t, executeBuyE env q md mf = .ok t) ∧
    (∀ (env : ExecEnv) (q : ℚ) (md : MarketData) (mf : Bool),
      ∃ t, executeSellE env q md mf = .ok t) ∧
    (∀ (env : ExecEnv) (q : ℚ) (md : MarketData) (mf : Bool),
      env.roundQty q * md.ask < env.minNotional →
      executeBuyE env q md mf =
        .ok (false, none,
          some (.belowMinNotional (env.roundQty q * md.ask) env.minNotional))) ∧
    (∀ (env : ExecEnv) (q : ℚ) (md : MarketData) (mf : Bool),
      ¬(env.roundQty q * md.ask < env.minNotional) →
      env.maker = .unfilled → env.taker = .unfilled →
      executeBuyE env q md mf = .ok (false, none, some .marketOrderFailedToFill)) ∧
    (∀ (pf : Portfolio) (q p fee : ℚ), pf.cash < q * p + fee →
      execute_buy pf q p fee = .raised (.insufficientCash pf.cash (q * p + fee))) ∧
    (∀ (pf : Portfolio) (q p fee : ℚ), pf.btc < q →
      execute_sell pf q p fee = .raised (.insufficientBtc pf.btc q)) := by
  refine ⟨?_, ?_, ?_, ?_, ?_, ?_⟩
  · intro env q md mf
    cases hM : env.maker <;> cases hT : env.taker <;>
      by_cases hmin : env.roundQty q * md.ask < env.minNotional <;>
      by_cases hmf2 : mf ∧ env.makerFirstSetting <;>
      simp [executeBuyE, hM, hT, hmin, hmf2]
  · intro env q md mf
    cases hM : env.maker <;> cases hT : env.taker <;>
      by_cases hmin : env.roundQty q * md.bid < env.minNotional <;>
      by_cases hmf2 : mf ∧ env.makerFirstSetting <;>
      simp [executeSellE, hM, hT, hmin, hmf2]
  · intro env q md mf h
    simp [executeBuyE, h]
  · intro env q md mf hmin hM hT
    simp [executeBuyE, hmin, hM, hT]
  · intro pf q p fee h
    simp [execute_buy, h]
  · intro pf q p fee h
    simp [execute_sell, h]

/-! ### C10: break-even trades count as losses (witness) -/

/-- C10 witness: a break-even exit at a concrete state trips a
`max_consecutive_losses = 1` breaker. -/
theorem C10_breakeven_is_loss_witness :
    (update_state_after_sell {} 1 0).consecutive_losses = 0 + 1 ∧
    (update_state_after_sell {} 1 0).consecutive_wins = 0 ∧
    (update_state_after_sell {} 1 0).winning_trades = 0 ∧
    (update_state_after_sell {} 1 0).total_trades = 0 + 1 ∧
    (check_consecutive_losses ⟨20, 1, 10, 2, 10, 10, 5⟩ (update_state_after_sell {} 1 0)).1 = true := by
  have h := C10_breakeven_is_loss {} 1 ⟨20, 1, 10, 2, 10, 10, 5⟩
  exact ⟨h.1, h.2.1, h.2.2.1, h.2.2.2.1, h.2.2.2.2 (by norm_num)⟩

end VolHarv
